import Mathlib

/-!
Verification development for the survey-administration backend:
the group-configuration and question-delivery lifecycle
(GroupStore, QuestionCatalog, AnswerSimulator, RatingStore, SurveyStatusGate).

The JavaScript handlers are shallowly embedded: DynamoDB tables become
lists of rows, each handler becomes a pure function from table states and
request values to a response value and the successor table states, and the
JavaScript value coercions (`Number`, truthiness, `||`, `??`, `===`,
template-literal stringification) are modelled explicitly.

JavaScript numbers are modelled exactly as fractions of machine-unbounded
integers (`JQ`), not as floating point: every numeric value the verified
flows produce is a decimal literal or a sum/product of such, where float
and exact arithmetic agree.  `JQ.nan` style behaviour lives in `JSNum`.
-/

namespace SurveyApp

/-- Exact fraction standing in for a JavaScript number.  The denominator is
kept positive by every constructor used in the development; values are not
normalised, so `===`-style comparisons go through `JQ.beqv`, never through
structural equality. -/
structure JQ where
  num : Int
  den : Int := 1
deriving DecidableEq

instance (n : Nat) : OfNat JQ n := ⟨⟨(n : Int), 1⟩⟩

/-- Fraction addition without normalisation (mirrors exact JS `+` on the
decimal values reachable in these flows). -/
def JQ.add (a b : JQ) : JQ := ⟨a.num * b.den + b.num * a.den, a.den * b.den⟩

/-- Fraction multiplication without normalisation. -/
def JQ.mul (a b : JQ) : JQ := ⟨a.num * b.num, a.den * b.den⟩

/-- Fraction division without normalisation; only used with positive
divisors in this development. -/
def JQ.div (a b : JQ) : JQ := ⟨a.num * b.den, a.den * b.num⟩

/-- Negation. -/
def JQ.neg (a : JQ) : JQ := ⟨-a.num, a.den⟩

/-- Value equality of fractions (JS `===` on numbers), valid for positive
denominators. -/
def JQ.beqv (a b : JQ) : Bool := a.num * b.den == b.num * a.den

/-- Value order `a ≤ b` on fractions, valid for positive denominators. -/
def JQ.ble (a b : JQ) : Bool := decide (a.num * b.den ≤ b.num * a.den)

/-- Value order `a < b` on fractions, valid for positive denominators. -/
def JQ.blt (a b : JQ) : Bool := decide (a.num * b.den < b.num * a.den)

/-- A JavaScript number: either NaN or an exact fraction. -/
inductive JSNum
  | nan
  | num (q : JQ)
deriving DecidableEq

/-- The JavaScript values that flow through these handlers. -/
inductive JsValue
  | undef
  | null
  | bool (b : Bool)
  | num (n : JSNum)
  | str (s : String)
deriving DecidableEq

/-- JS truthiness: `undefined`, `null`, `false`, `0`, `NaN` and `""` are
falsy, everything else reaching these handlers is truthy. -/
def truthy : JsValue → Bool
  | .undef => false
  | .null => false
  | .bool b => b
  | .num .nan => false
  | .num (.num q) => !(q.beqv 0)
  | .str s => s ≠ ""

/-- JS `a || b`. -/
def jsOr (a b : JsValue) : JsValue := if truthy a then a else b

/-- JS `a ?? b`. -/
def jsNullish (a b : JsValue) : JsValue :=
  match a with
  | .undef => b
  | .null => b
  | _ => a

/-- ASCII lower-casing of one character (JS `toLowerCase` restricted to the
ASCII range handled by this repository's data). -/
def lowerChar (c : Char) : Char :=
  if 65 ≤ c.toNat && c.toNat ≤ 90 then Char.ofNat (c.toNat + 32) else c

/-- JS `String.prototype.toLowerCase` (ASCII range). -/
def strLower (s : String) : String := String.mk (s.data.map lowerChar)

/-- The whitespace characters JS `trim` strips (ASCII subset). -/
def isWsChar (c : Char) : Bool :=
  c == ' ' || c == Char.ofNat 9 || c == Char.ofNat 10 || c == Char.ofNat 11 ||
  c == Char.ofNat 12 || c == Char.ofNat 13

/-- JS `String.prototype.trim` (ASCII whitespace). -/
def strTrim (s : String) : String :=
  String.mk (((s.data.dropWhile isWsChar).reverse.dropWhile isWsChar).reverse)

/-- ASCII upper-casing of one character (JS `toUpperCase` restricted to the
ASCII range handled by this repository's data). -/
def upperChar (c : Char) : Char :=
  if 97 ≤ c.toNat && c.toNat ≤ 122 then Char.ofNat (c.toNat - 32) else c

/-- JS `String.prototype.toUpperCase` (ASCII range). -/
def strUpper (s : String) : String := String.mk (s.data.map upperChar)

/-- Numeric value of a digit list, most significant first. -/
def digitsToNat (cs : List Char) : Nat :=
  cs.foldl (fun acc c => acc * 10 + (c.toNat - 48)) 0

/-- Core of JS `Number()` on a sign-stripped string: an optional integer
part, an optional dot, an optional fractional part (at least one digit in
total).  Exponent, hexadecimal and `Infinity` forms do not occur in this
repository's data and are not modelled. -/
def parseDecCore (cs : List Char) : Option JQ :=
  let ip := cs.takeWhile Char.isDigit
  let rest := cs.dropWhile Char.isDigit
  match rest with
  | [] => if ip.isEmpty then none else some (⟨(digitsToNat ip : Int), 1⟩ : JQ)
  | c :: fr =>
    if c == '.' && fr.all Char.isDigit && (!ip.isEmpty || !fr.isEmpty) then
      some ((⟨(digitsToNat ip : Int), 1⟩ : JQ).add
        ((⟨(digitsToNat fr : Int), 1⟩ : JQ).div ⟨(10 ^ fr.length : Int), 1⟩))
    else none

/-- JS `Number()` applied to a string: trimmed, empty means `0`, otherwise
an optionally signed decimal literal, anything else is NaN. -/
def parseDecimal (s : String) : JSNum :=
  let t := strTrim s
  if t = "" then .num 0
  else
    match t.data with
    | '-' :: body =>
      match parseDecCore body with
      | some q => .num q.neg
      | none => .nan
    | '+' :: body =>
      match parseDecCore body with
      | some q => .num q
      | none => .nan
    | body =>
      match parseDecCore body with
      | some q => .num q
      | none => .nan

/-- JS `Number()` on an arbitrary value. -/
def toNumber : JsValue → JSNum
  | .undef => .nan
  | .null => .num 0
  | .bool b => .num (if b then 1 else 0)
  | .num n => n
  | .str s => parseDecimal s

/-- JS multiplication on numbers; NaN is absorbing. -/
def jsMul : JSNum → JSNum → JSNum
  | .num a, .num b => .num (a.mul b)
  | _, _ => .nan

/-- JS `a >= b` on numbers; any comparison with NaN is false. -/
def jsGe : JSNum → JSNum → Bool
  | .num a, .num b => b.ble a
  | _, _ => false

/-- Decimal rendering of an integer. -/
def intStr (n : Int) : String :=
  (if n < 0 then "-" else "") ++ toString n.natAbs

/-- JS number-to-string coercion for the values reachable here: integers and
terminating decimals render as decimal literals, NaN as `"NaN"`.  The float
shortest-round-trip printing of non-terminating decimals is not modelled;
no verified flow produces one (the fallback renders the raw fraction). -/
def jsNumToString : JSNum → String
  | .nan => "NaN"
  | .num q =>
    match (List.range 31).find? (fun k => q.num.natAbs * 10 ^ k % q.den.natAbs == 0) with
    | some 0 => intStr (q.num / q.den)
    | some (k + 1) =>
      let scaled := q.num.natAbs * 10 ^ (k + 1) / q.den.natAbs
      let s := toString scaled
      let s := (String.mk (List.replicate (k + 2 - s.length) '0')) ++ s
      (if q.num < 0 then "-" else "") ++
        (s.take (s.length - (k + 1))) ++ "." ++ (s.drop (s.length - (k + 1)))
    | none => intStr q.num ++ "/" ++ intStr q.den

/-- JS `String()` coercion. -/
def jsToString : JsValue → String
  | .undef => "undefined"
  | .null => "null"
  | .bool b => if b then "true" else "false"
  | .num n => jsNumToString n
  | .str s => s

/-! ## Groups table (GroupStore data model)

One DynamoDB row per group, keyed by `groupId`.  The `questionsJson`
attribute is a serialized text blob; the embedding records the outcome of
deserializing it: the attribute may be absent, hold malformed JSON (a
`JSON.parse` that throws), or hold a serialized array of question objects.
The reserved `COUNTER` row additionally carries the `currentId` attribute
used by the group-ID allocator. -/

/-- One question object inside a group's `questionsJson` blob.  Every field
is optional: the researcher UI creates questions with blank fields and the
handlers apply `??` / `||` defaults on read. -/
structure GroupQuestion where
  question : Option String := none
  preAnswer : Option String := none
  answer : Option String := none
  delay : Option JsValue := none
  fontFace : Option String := none
  colorScheme : Option String := none
deriving DecidableEq

/-- State of a row's `questionsJson` attribute, as seen through
`JSON.parse`: absent, present but malformed (parse throws), or a parsed
array of question objects. -/
inductive QuestionsBlob
  | absent
  | malformed
  | parsed (qs : List GroupQuestion)
deriving DecidableEq

/-- One row of the `Groups` table. -/
structure StoredGroupRow where
  groupId : String
  fontFace : Option String := none
  colorScheme : Option String := none
  questionsJson : QuestionsBlob := .absent
  currentId : Option JQ := none
deriving DecidableEq

/-- The `Groups` table: the list of rows, in scan order. -/
abbrev GroupTable := List StoredGroupRow

/-- DynamoDB `GetItem` on the `Groups` table. -/
def findGroup (t : GroupTable) (gid : String) : Option StoredGroupRow :=
  t.find? (fun r => r.groupId == gid)

/-- DynamoDB `PutItem`: full-row replace at the key (no attribute merge). -/
def putGroup (t : GroupTable) (row : StoredGroupRow) : GroupTable :=
  t.filter (fun r => r.groupId != row.groupId) ++ [row]

/-- DynamoDB `DeleteItem`. -/
def deleteGroup (t : GroupTable) (gid : String) : GroupTable :=
  t.filter (fun r => r.groupId != gid)

/-- JS `opt || default` on an optional string attribute. -/
def optOr (o : Option String) (d : String) : String :=
  match o with
  | some s => if s = "" then d else s
  | none => d

/-! ## QuestionCatalog: getQuestionsAllRows (surveyApi.js) -/

/-- The question array a scanned row contributes: the parsed array when the
blob parses, otherwise (absent attribute, or malformed JSON whose parse
error is logged and swallowed) the empty list. -/
def rowQuestions (itm : StoredGroupRow) : List GroupQuestion :=
  match itm.questionsJson with
  | .parsed qs => qs
  | _ => []

/-- One flattened catalog entry (cache-internal record of surveyApi.js). -/
structure CatalogQuestion where
  assignedId : Nat
  question : String
  preAnswer : String
  answer : String
  delay : JsValue
  groupId : String
  colorScheme : String
  fontFace : String
deriving DecidableEq

/-- The catalog record built from scanned row `itm` for question object
`obj` under the running counter `nid`; styling is taken from the row
(group) level, per-question `fontFace`/`colorScheme` overrides are not
consulted. -/
def mkCatalogQ (itm : StoredGroupRow) (nid : Nat) (obj : GroupQuestion) : CatalogQuestion :=
  { assignedId := nid
    question := obj.question.getD ""
    preAnswer := obj.preAnswer.getD "Thinking..."
    answer := obj.answer.getD ""
    delay := obj.delay.getD (.str "1")
    groupId := itm.groupId
    colorScheme := itm.colorScheme.getD ""
    fontFace := itm.fontFace.getD "" }

/-- Inner `forEach` of `getQuestionsAllRows`: push one catalog record per
question object, incrementing the shared `nextId` counter. -/
def pushGroup (acc : List CatalogQuestion × Nat) (itm : StoredGroupRow) :
    List CatalogQuestion × Nat :=
  (rowQuestions itm).foldl (fun a obj => (a.1 ++ [mkCatalogQ itm a.2 obj], a.2 + 1)) acc

/-- The flattened catalog (`flat` in `getQuestionsAllRows`): scan all rows
in order, `nextId` starting at 1. -/
def buildCatalog (rows : List StoredGroupRow) : List CatalogQuestion :=
  (rows.foldl pushGroup ([], 1)).1

/-- The minimal projection returned to the `/fixed-questions` caller. -/
structure QuestionView where
  id : Nat
  question : String
deriving DecidableEq

/-- Operation `getQuestionsAllRows`: returns the new cache (`allDbQuestions`) and the
projected response body. -/
def getQuestionsAllRows (rows : List StoredGroupRow) :
    List CatalogQuestion × List QuestionView :=
  let flat := buildCatalog rows
  (flat, flat.map (fun q => { id := q.assignedId, question := q.question }))

/-- Scan-order concatenation of (row, question) pairs, the reference order
against which the catalog's fold is characterised. -/
def flattenedEntries (rows : List StoredGroupRow) : List (StoredGroupRow × GroupQuestion) :=
  rows.flatMap (fun itm => (rowQuestions itm).map (fun obj => (itm, obj)))

/-- Assign sequential ids starting at `n` to a list of (row, question)
pairs. -/
def numberFrom (n : Nat) : List (StoredGroupRow × GroupQuestion) → List CatalogQuestion
  | [] => []
  | e :: es => mkCatalogQ e.1 n e.2 :: numberFrom (n + 1) es

/-- Total number of questions across all scanned rows. -/
def totalQuestions (rows : List StoredGroupRow) : Nat :=
  (rows.map (fun itm => (rowQuestions itm).length)).sum

/-! ## AnswerSimulator: handleAsk (surveyApi.js) -/

/-- The body of a `handleAsk` response. -/
inductive AskBody
  | missing
  | noQuestion (idText : String)
  | pre (preAnswerMessage : String)
  | final (finalAnswer colorScheme fontFace : String)
deriving DecidableEq

/-- A `handleAsk` outcome: the number of milliseconds passed to `sleep`
(`.num 0` when `sleep` is not invoked at all) together with the response
body. -/
structure AskOutcome where
  waitMs : JSNum
  body : AskBody
deriving DecidableEq

/-- The strict comparison `q.assignedId === questionId`: true only when the
request value is a number with the same numeric value (never for strings,
and never for NaN). -/
def idEqJs (aid : Nat) (v : JsValue) : Bool :=
  match v with
  | .num (.num q) => JQ.beqv ⟨(aid : Int), 1⟩ q
  | _ => false

/-- The lookup `allDbQuestions.find(q => q.assignedId === questionId)`. -/
def askResolve (cache : List CatalogQuestion) (questionId : JsValue) : Option CatalogQuestion :=
  cache.find? (fun q => idEqJs q.assignedId questionId)

/-- Operation `handleAsk(questionId, phase = "pre")`: also returns the possibly
rebuilt process-wide cache (`allDbQuestions`), which is replaced by a fresh
scan exactly when it is empty. -/
def handleAsk (cache : List CatalogQuestion) (rows : List StoredGroupRow)
    (questionId phase : JsValue) : AskOutcome × List CatalogQuestion :=
  let phase := if phase = JsValue.undef then .str "pre" else phase
  if !truthy questionId then ({ waitMs := .num 0, body := .missing }, cache)
  else
    let cache := if cache.length = 0 then buildCatalog rows else cache
    match askResolve cache questionId with
    | none => ({ waitMs := .num 0, body := .noQuestion (jsToString questionId) }, cache)
    | some dbQ =>
      if phase = JsValue.str "pre" then
        ({ waitMs := .num 0, body := .pre dbQ.preAnswer }, cache)
      else
        ({ waitMs := jsMul (toNumber (jsOr dbQ.delay (.num (.num 1)))) (.num ⟨1000, 1⟩),
           body := .final dbQ.answer dbQ.colorScheme dbQ.fontFace }, cache)

/-! ## RatingStore: handleRate / getAllRatings (surveyApi.js) -/

/-- One row of the `Responses` table: the rating counter attributes that
have been created (`ADD` creates them on first use), and the optional
`question` text attribute. -/
structure RatingRow where
  questionId : String
  counters : List (String × JQ) := []
  question : Option String := none
deriving DecidableEq

/-- The `Responses` table. -/
abbrev RespTable := List RatingRow

/-- DynamoDB `GetItem` on `Responses`. -/
def findResp (t : RespTable) (k : String) : Option RatingRow :=
  t.find? (fun r => r.questionId == k)

/-- Full-row write at a key of `Responses`. -/
def putResp (t : RespTable) (row : RatingRow) : RespTable :=
  t.filter (fun r => r.questionId != row.questionId) ++ [row]

/-- Read one named counter attribute. -/
def assocGet (l : List (String × JQ)) (k : String) : Option JQ :=
  (l.find? (fun p => p.1 == k)).map (fun p => p.2)

/-- Write one named counter attribute. -/
def assocSet (l : List (String × JQ)) (k : String) (v : JQ) : List (String × JQ) :=
  l.filter (fun p => p.1 != k) ++ [(k, v)]

/-- The backfill lookup `allDbQuestions.find(q => q.assignedId === Number(questionId))?.question
|| ""`: the text backfill coerces the request's questionId with `Number`
before the strict comparison. -/
def resolveRatingText (cache : List CatalogQuestion) (questionId : JsValue) : String :=
  match cache.find? (fun q =>
      match toNumber questionId with
      | .num x => JQ.beqv ⟨(q.assignedId : Int), 1⟩ x
      | .nan => false) with
  | some q => q.question
  | none => ""

/-- A `handleRate` response body. -/
inductive RateResult
  | invalid
  | stored (updated : List (String × JQ))
deriving DecidableEq

/-- Operation `handleRate(questionId, rating)`.  The first `UpdateCommand` atomically
adds 1 to the `rating{Number(rating)}` column, creating the row with that
single counter when absent, and returns (`UPDATED_NEW`) only the column it
touched; the `question` attribute is therefore never among the returned
attributes, so the backfill branch runs on every successful rate, but its
`if_not_exists` guard keeps the first stored text. -/
def handleRate (cache : List CatalogQuestion) (t : RespTable)
    (questionId rating : JsValue) : RateResult × RespTable :=
  let r := toNumber rating
  if !truthy questionId || !(jsGe r (.num 1) && jsGe (.num 5) r) then (.invalid, t)
  else
    let ratingCol := "rating" ++ jsNumToString r
    let key := jsToString questionId
    let row0 := (findResp t key).getD { questionId := key }
    let newVal := ((assocGet row0.counters ratingCol).getD 0).add 1
    let row1 := { row0 with counters := assocSet row0.counters ratingCol newVal }
    let t1 := putResp t row1
    let updAttrs : List (String × JQ) := [(ratingCol, newVal)]
    let existingText := assocGet updAttrs "question"
    if existingText.isSome then (.stored updAttrs, t1)
    else
      let text := resolveRatingText cache questionId
      if text ≠ "" then
        (.stored updAttrs, putResp t1 { row1 with question := some (row1.question.getD text) })
      else (.stored updAttrs, t1)

/-- Iterated rating submission (the same request repeated). -/
def submitN (cache : List CatalogQuestion) (questionId rating : JsValue) :
    Nat → RespTable → RespTable
  | 0, t => t
  | n + 1, t => submitN cache questionId rating n (handleRate cache t questionId rating).2

/-- One entry of the `GET /ratings` aggregate. -/
structure RatingView where
  questionId : String
  question : Option String
  rating1 : JQ
  rating2 : JQ
  rating3 : JQ
  rating4 : JQ
  rating5 : JQ
deriving DecidableEq

/-- The read `item.rating1 || 0` (and likewise for the other counters). -/
def ratingOr0 (row : RatingRow) (col : String) : JQ :=
  (assocGet row.counters col).getD 0

/-- Operation `getAllRatings`: every row with the five counters defaulted to 0. -/
def getAllRatings (t : RespTable) : List RatingView :=
  t.map (fun row =>
    { questionId := row.questionId
      question := row.question
      rating1 := ratingOr0 row "rating1"
      rating2 := ratingOr0 row "rating2"
      rating3 := ratingOr0 row "rating3"
      rating4 := ratingOr0 row "rating4"
      rating5 := ratingOr0 row "rating5" })

/-! ## The surveyApi router (exports.handler of surveyApi.js) -/

/-- The JSON body of a surveyApi response. -/
inductive SurveyApiBody
  | empty
  | questionList (l : List QuestionView)
  | ask (b : AskBody)
  | rate (r : RateResult)
  | ratings (l : List RatingView)
  | message (m : String)
deriving DecidableEq

/-- An HTTP response of the surveyApi router. -/
structure SurveyApiRes where
  statusCode : Nat
  body : SurveyApiBody
deriving DecidableEq

/-- The surveyApi dispatch: OPTIONS short-circuits with 200; the four
routes wrap their handler's return value in `successRes` (status 200
whatever the body says — `notFound` is reached only by the fallthrough for
a method/path matching no route).  The request's parsed body fields
(`questionId`, `phase`, `rating`) are `undefined` when absent.  Returns the
response together with the successor catalog cache and `Responses`
table. -/
def routeSurveyApi (cache : List CatalogQuestion) (rows : List StoredGroupRow)
    (resp : RespTable) (method path : String) (questionId phase rating : JsValue) :
    SurveyApiRes × List CatalogQuestion × RespTable :=
  if strUpper method = "OPTIONS" then
    ({ statusCode := 200, body := .empty }, cache, resp)
  else if strUpper method = "GET" ∧ path = "/fixed-questions" then
    let r := getQuestionsAllRows rows
    ({ statusCode := 200, body := .questionList r.2 }, r.1, resp)
  else if strUpper method = "POST" ∧ path = "/ask" then
    let r := handleAsk cache rows questionId phase
    ({ statusCode := 200, body := .ask r.1.body }, r.2, resp)
  else if strUpper method = "POST" ∧ path = "/rate" then
    let r := handleRate cache resp questionId rating
    ({ statusCode := 200, body := .rate r.1 }, cache, r.2)
  else if strUpper method = "GET" ∧ path = "/ratings" then
    ({ statusCode := 200, body := .ratings (getAllRatings resp) }, cache, resp)
  else
    ({ statusCode := 404,
       body := .message ("Route not found for " ++ strUpper method ++ " " ++ path) },
     cache, resp)

/-! ## GroupStore: GroupConfigLambda/index.js -/

/-- Result of `getGroupConfig`: 404 when the row is absent, otherwise the
row's styling and the deserialized question list (`questionsJson || "[]"`,
so an absent blob reads as the empty list); a malformed blob makes
`JSON.parse` throw, surfaced as a 500 by the handler's catch. -/
inductive GetGroupResult
  | notFound (message : String)
  | ok (fontFace colorScheme : Option String) (questions : List GroupQuestion)
  | internalError
deriving DecidableEq

/-- Operation `getGroupConfig(groupId)`. -/
def getGroupConfig (t : GroupTable) (gid : String) : GetGroupResult :=
  match findGroup t gid with
  | none => .notFound ("Group " ++ gid ++ " not found.")
  | some row =>
    match row.questionsJson with
    | .absent => .ok row.fontFace row.colorScheme []
    | .malformed => .internalError
    | .parsed qs => .ok row.fontFace row.colorScheme qs

/-- The request body of a save call, already JSON-parsed. -/
structure GroupConfigInput where
  fontFace : Option String := none
  colorScheme : Option String := none
  questions : Option (List GroupQuestion) := none
deriving DecidableEq

/-- The row `saveGroupConfig` writes: styling defaulted with `||`, the
question list re-serialized (`JSON.stringify(config.questions || [])`), and
no other attribute — the `PutItem` is a full replace, so any previous
attributes (including `currentId`) are dropped. -/
def savedRow (gid : String) (config : GroupConfigInput) : StoredGroupRow :=
  { groupId := gid
    fontFace := some (optOr config.fontFace "Arial")
    colorScheme := some (optOr config.colorScheme "#000000")
    questionsJson := .parsed (config.questions.getD []) }

/-- The 200 body of a save call. -/
structure SaveResponse where
  message : String
  groupId : String
deriving DecidableEq

/-- Operation `saveGroupConfig(groupId, requestBody)`. -/
def saveGroupConfig (t : GroupTable) (gid : String) (config : GroupConfigInput) :
    SaveResponse × GroupTable :=
  ({ message := "Saved group " ++ gid, groupId := gid }, putGroup t (savedRow gid config))

/-- Operation `getNextGroupId()`: atomic
`SET currentId = if_not_exists(currentId, 0) + 1` on the reserved
`COUNTER` row, returning the new value. -/
def getNextGroupId (t : GroupTable) : JQ × GroupTable :=
  let row := (findGroup t "COUNTER").getD { groupId := "COUNTER" }
  let newId := (row.currentId.getD 0).add 1
  (newId, putGroup t { row with currentId := some newId })

/-- The handler's allocation condition
`!groupId || groupId === "undefined"` on the optional path parameter. -/
def shouldAllocate : Option String → Bool
  | none => true
  | some s => s == "" || s == "undefined"

/-- Resolution of the group id on POST/PUT: allocate
`String(await getNextGroupId())` when the condition holds, otherwise use
the supplied path parameter. -/
def resolveGroupId (t : GroupTable) (gid : Option String) : String × GroupTable :=
  if shouldAllocate gid then
    let r := getNextGroupId t
    (jsNumToString (.num r.1), r.2)
  else
    (gid.getD "", t)

/-- The POST/PUT branch of the GroupConfigLambda handler. -/
def groupPutHandler (t : GroupTable) (gid : Option String) (config : GroupConfigInput) :
    SaveResponse × GroupTable :=
  let r := resolveGroupId t gid
  saveGroupConfig r.2 r.1 config

/-- The `currentId` the counter row currently holds (0 when the row or the
attribute is absent), i.e. the value the next allocation increments. -/
def counterValue (t : GroupTable) : JQ :=
  (((findGroup t "COUNTER").getD { groupId := "COUNTER" }).currentId).getD 0

/-- The filter deleteQuestionFromGroup applies: keep exactly the questions
whose trimmed lower-cased text differs from the trimmed lower-cased
input. -/
def deleteFilter (qs : List GroupQuestion) (questionText : String) : List GroupQuestion :=
  qs.filter (fun q =>
    strLower (strTrim (q.question.getD "")) != strLower (strTrim questionText))

/-- Result of `deleteQuestionFromGroup`. -/
inductive DeleteQResult
  | notFound (message : String)
  | deletedGroup (message : String)
  | removed (message : String)
  | internalError
deriving DecidableEq

/-- Operation `deleteQuestionFromGroup(groupId, questionText)`: 404 when the row or
its `questionsJson` attribute is missing; a malformed blob makes
`JSON.parse` throw (500); otherwise filter by normalized text, delete the
whole row when nothing remains, else rewrite the row with the filtered
list and `||`-defaulted styling. -/
def deleteQuestionFromGroup (t : GroupTable) (gid : String) (questionText : String) :
    DeleteQResult × GroupTable :=
  match findGroup t gid with
  | none => (.notFound ("No questions found for group " ++ gid), t)
  | some row =>
    match row.questionsJson with
    | .absent => (.notFound ("No questions found for group " ++ gid), t)
    | .malformed => (.internalError, t)
    | .parsed originalQuestions =>
      let updated := deleteFilter originalQuestions questionText
      if updated.isEmpty then
        (.deletedGroup ("Deleted entire group row for groupId " ++ gid), deleteGroup t gid)
      else
        (.removed ("Removed question from group " ++ gid),
         putGroup t
           { groupId := gid
             fontFace := some (optOr row.fontFace "Arial")
             colorScheme := some (optOr row.colorScheme "#000000")
             questionsJson := .parsed updated })

/-! ## SurveyStatusGate: surveyStatus.js -/

/-- The singleton `SurveyStatus` row (only the `isOpen` attribute). -/
structure SurveyRow where
  isOpen : Option JsValue := none
deriving DecidableEq

/-- Route `GET /survey-status`: reads `Item?.isOpen ?? false`. -/
def surveyStatusGet (t : Option SurveyRow) : JsValue :=
  match t with
  | none => .bool false
  | some r =>
    match r.isOpen with
    | none => .bool false
    | some v => jsNullish v (.bool false)

/-- Route `POST /survey-status`: unconditional `SET isOpen = :s`, creating the
singleton row when absent (`isOpen` is the row's only non-key attribute, so
the previous state is irrelevant). -/
def surveyStatusSet (_t : Option SurveyRow) (v : JsValue) : Option SurveyRow :=
  some { isOpen := some v }

/-! ## Concrete fixtures used by witnesses and counterexamples -/

/-- A group row with one fully populated question whose `delay` is the
string `"0"`. -/
def demoRow : StoredGroupRow :=
  { groupId := "g1", fontFace := some "Arial", colorScheme := some "#111111",
    questionsJson := .parsed [{ question := some "Q1", preAnswer := some "thinking",
                                answer := some "A1", delay := some (.str "0") }] }

/-- The catalog cache built from `demoRow` alone. -/
def demoCache : List CatalogQuestion := buildCatalog [demoRow]

/-- A group row whose question blob is malformed JSON. -/
def demoMalformedRow : StoredGroupRow := { groupId := "gm", questionsJson := .malformed }

/-- A group row with one question whose `delay` is the non-numeric string
`"abc"`. -/
def c3Row : StoredGroupRow :=
  { groupId := "g1", fontFace := some "Arial", colorScheme := some "#111111",
    questionsJson := .parsed [{ question := some "Q1", preAnswer := some "thinking",
                                answer := some "A1", delay := some (.str "abc") }] }

/-- A two-question group row used to exercise question deletion. -/
def c2Row : StoredGroupRow :=
  { groupId := "g2", fontFace := some "Georgia", colorScheme := some "#222222",
    questionsJson := .parsed [{ question := some " Foo ", answer := some "A" },
                              { question := some "Bar", answer := some "B" }] }

/-! ## Catalog characterisation lemmas -/

theorem numberFrom_append (n : Nat) (l₁ l₂ : List (StoredGroupRow × GroupQuestion)) :
    numberFrom n (l₁ ++ l₂) = numberFrom n l₁ ++ numberFrom (n + l₁.length) l₂ := by
  induction l₁ generalizing n with
  | nil => simp [numberFrom]
  | cons e es ih =>
    simp only [List.cons_append, numberFrom, List.length_cons, List.append_eq, ih]
    rw [show n + (es.length + 1) = n + 1 + es.length from by omega]

theorem pushGroup_characterisation (itm : StoredGroupRow) (fl : List CatalogQuestion) (n : Nat) :
    pushGroup (fl, n)  itm
      = (fl ++ numberFrom n ((rowQuestions itm).map (fun obj => (itm, obj))),
         n + (rowQuestions itm).length) := by
  unfold pushGroup
  generalize rowQuestions itm = qs
  induction qs generalizing fl n with
  | nil => simp [numberFrom]
  | cons q qs ih =>
    simp only [List.foldl_cons, List.map_cons, numberFrom, List.length_cons, ih,
      Prod.mk.injEq]
    constructor
    · simp
    · omega

theorem foldl_pushGroup_characterisation (rows : List StoredGroupRow)
    (fl : List CatalogQuestion) (n : Nat) :
    rows.foldl pushGroup (fl, n)
      = (fl ++ numberFrom n (flattenedEntries rows), n + totalQuestions rows) := by
  induction rows generalizing fl n with
  | nil => simp [flattenedEntries, numberFrom, totalQuestions]
  | cons itm rest ih =>
    simp only [List.foldl_cons, pushGroup_characterisation, ih, flattenedEntries,
      List.flatMap_cons, totalQuestions, List.map_cons, List.sum_cons, Prod.mk.injEq]
    constructor
    · rw [numberFrom_append, List.append_assoc]
      simp [flattenedEntries]
    · omega

/-- The source's fold with a running `nextId` equals sequential numbering of
the scan-order flattening, starting at 1. -/
theorem buildCatalog_eq (rows : List StoredGroupRow) :
    buildCatalog rows = numberFrom 1 (flattenedEntries rows) := by
  unfold buildCatalog
  rw [foldl_pushGroup_characterisation]
  simp

theorem numberFrom_map_assignedId (n : Nat) (es : List (StoredGroupRow × GroupQuestion)) :
    (numberFrom n es).map (fun q => q.assignedId) = List.range' n es.length := by
  induction es generalizing n with
  | nil => simp [numberFrom]
  | cons e es ih => simp [numberFrom, mkCatalogQ, List.range', ih]

theorem flattenedEntries_length (rows : List StoredGroupRow) :
    (flattenedEntries rows).length = totalQuestions rows := by
  induction rows with
  | nil => simp [flattenedEntries, totalQuestions]
  | cons itm rest ih =>
    simp [flattenedEntries, totalQuestions, List.flatMap_cons] at ih ⊢
    omega

theorem mem_numberFrom (n : Nat) (es : List (StoredGroupRow × GroupQuestion))
    (q : CatalogQuestion) (h : q ∈ numberFrom n es) :
    ∃ e ∈ es, q = mkCatalogQ e.1 q.assignedId e.2 := by
  induction es generalizing n with
  | nil => cases h
  | cons e es ih =>
    rcases List.mem_cons.mp h with h1 | h2
    · exact ⟨e, List.mem_cons_self e es, by rw [h1]; rfl⟩
    · obtain ⟨e2, he2, hq⟩ := ih (n + 1) h2
      exact ⟨e2, List.mem_cons_of_mem _ he2, hq⟩

/-- Every catalog entry an ask lookup can resolve comes from some scanned
row `itm` and some question object `obj` of that row's parsed blob, with
exactly the fields `mkCatalogQ` builds: styling from the row (group) level
and the `?? "1"` delay default. -/
theorem askResolve_provenance (rows : List StoredGroupRow) (qid : JsValue)
    (dbQ : CatalogQuestion)
    (hres : askResolve (buildCatalog rows) qid = some dbQ) :
    ∃ itm ∈ rows, ∃ obj ∈ rowQuestions itm, dbQ = mkCatalogQ itm dbQ.assignedId obj := by
  have hmem : dbQ ∈ buildCatalog rows := List.mem_of_find?_eq_some hres
  rw [buildCatalog_eq] at hmem
  obtain ⟨e, he, hq⟩ := mem_numberFrom 1 _ dbQ hmem
  obtain ⟨itm, hitm, hpair⟩ := List.mem_flatMap.mp he
  obtain ⟨obj, hobj, heq⟩ := List.mem_map.mp hpair
  refine ⟨itm, hitm, obj, hobj, ?_⟩
  rw [hq, ← heq]
  rfl

/-! ## Table access lemmas -/

theorem find?_append_of_none {α : Type} (p : α → Bool) (l₁ l₂ : List α)
    (h : l₁.find? p = none) : (l₁ ++ l₂).find? p = l₂.find? p := by
  induction l₁ with
  | nil => simp
  | cons a l ih =>
    simp only [List.cons_append, List.find?_cons] at h ⊢
    cases hpa : p a with
    | true => simp [hpa] at h
    | false =>
      simp only [hpa] at h ⊢
      exact ih h

theorem find?_filter_ne_group (t : GroupTable) (gid : String) :
    (t.filter (fun r => r.groupId != gid)).find? (fun r => r.groupId == gid) = none := by
  induction t with
  | nil => simp
  | cons r rest ih =>
    by_cases h : r.groupId = gid
    · simp [List.filter_cons, h, ih]
    · simp only [List.filter_cons]
      have h1 : (r.groupId != gid) = true := by simp [h]
      rw [h1]
      simp only [if_true]
      rw [List.find?_cons]
      have h2 : (r.groupId == gid) = false := by simp [h]
      simp [h2, ih]

theorem findGroup_putGroup (t : GroupTable) (row : StoredGroupRow) :
    findGroup (putGroup t row) row.groupId = some row := by
  unfold findGroup putGroup
  rw [find?_append_of_none _ _ _ (find?_filter_ne_group t row.groupId)]
  simp [List.find?_cons]

theorem findGroup_putGroup_of_ne (t : GroupTable) (row : StoredGroupRow) (gid : String)
    (h : row.groupId ≠ gid) : findGroup (putGroup t row) gid = findGroup t gid := by
  unfold findGroup putGroup
  induction t with
  | nil => simp [List.find?_cons, h]
  | cons r rest ih =>
    by_cases hr : r.groupId = row.groupId
    · have h1 : (r.groupId != row.groupId) = false := by simp [hr]
      have h2 : (r.groupId == gid) = false := by
        simp only [beq_eq_false_iff_ne, ne_eq]
        rw [hr]; exact h
      simp only [List.filter_cons, h1, if_false, List.find?_cons, h2]
      exact ih
    · have h1 : (r.groupId != row.groupId) = true := by simp [hr]
      simp only [List.filter_cons, h1, if_true, List.cons_append, List.find?_cons]
      cases hg : (r.groupId == gid) with
      | true => rfl
      | false => exact ih

theorem findGroup_deleteGroup (t : GroupTable) (gid : String) :
    findGroup (deleteGroup t gid) gid = none := by
  unfold findGroup deleteGroup
  exact find?_filter_ne_group t gid

theorem findGroup_some_groupId (t : GroupTable) (gid : String) (row : StoredGroupRow)
    (h : findGroup t gid = some row) : row.groupId = gid := by
  have := List.find?_some h
  simpa using this

theorem find?_filter_ne_resp (t : RespTable) (k : String) :
    (t.filter (fun r => r.questionId != k)).find? (fun r => r.questionId == k) = none := by
  induction t with
  | nil => simp
  | cons r rest ih =>
    by_cases h : r.questionId = k
    · simp [List.filter_cons, h, ih]
    · simp only [List.filter_cons]
      have h1 : (r.questionId != k) = true := by simp [h]
      rw [h1]
      simp only [if_true]
      rw [List.find?_cons]
      have h2 : (r.questionId == k) = false := by simp [h]
      simp [h2, ih]

theorem findResp_putResp (t : RespTable) (row : RatingRow) :
    findResp (putResp t row) row.questionId = some row := by
  unfold findResp putResp
  rw [find?_append_of_none _ _ _ (find?_filter_ne_resp t row.questionId)]
  simp [List.find?_cons]

theorem findResp_some_questionId (t : RespTable) (k : String) (row : RatingRow)
    (h : findResp t k = some row) : row.questionId = k := by
  have := List.find?_some h
  simpa using this

/-! ## Claims -/

/-- C1: for every set of persisted Group rows, the catalog rebuild
(`getQuestionsAllRows`) assigns `assignedId` values sequentially 1..N, N
the total number of questions across all groups at scan time, in group-scan
order then question-array order; a row with a malformed `questionsJson`
blob contributes the empty question list instead of failing the scan; and
the value returned to the caller is the projection of each catalog question
to only its id and question text. -/
theorem claim_C1_catalog_rebuild (rows : List StoredGroupRow) :
    (getQuestionsAllRows rows).1 = numberFrom 1 (flattenedEntries rows)
    ∧ ((getQuestionsAllRows rows).1).map (fun q => q.assignedId)
        = List.range' 1 (totalQuestions rows)
    ∧ (getQuestionsAllRows rows).2
        = ((getQuestionsAllRows rows).1).map
            (fun q => { id := q.assignedId, question := q.question })
    ∧ (∀ itm : StoredGroupRow, itm.questionsJson = .malformed → rowQuestions itm = []) := by
  refine ⟨?_, ?_, rfl, ?_⟩
  · exact buildCatalog_eq rows
  · show (buildCatalog rows).map _ = _
    rw [buildCatalog_eq, numberFrom_map_assignedId, flattenedEntries_length]
  · intro itm h
    simp [rowQuestions, h]

/-- C1 witness: the characterisation applied to a concrete scan containing
a malformed row. -/
theorem claim_C1_catalog_rebuild_witness :
    ((getQuestionsAllRows [demoRow, demoMalformedRow]).1).map (fun q => q.assignedId)
        = List.range' 1 (totalQuestions [demoRow, demoMalformedRow])
    ∧ rowQuestions demoMalformedRow = [] :=
  ⟨(claim_C1_catalog_rebuild [demoRow, demoMalformedRow]).2.1,
   (claim_C1_catalog_rebuild [demoRow, demoMalformedRow]).2.2.2 demoMalformedRow rfl⟩

/-- C9: the survey-status gate reads `false` when the singleton row is
absent, a set-then-get round trip returns the value just set, and setting
the negation of the current boolean value twice returns the gate to its
original value. -/
theorem claim_C9_survey_status_gate (t : Option SurveyRow) (b : Bool) :
    surveyStatusGet none = .bool false
    ∧ surveyStatusGet (surveyStatusSet t (.bool b)) = .bool b
    ∧ (∀ b0 : Bool, surveyStatusGet t = .bool b0 →
        surveyStatusGet
          (surveyStatusSet (surveyStatusSet t (.bool (!b0))) (.bool (!(!b0))))
          = surveyStatusGet t) := by
  refine ⟨rfl, rfl, ?_⟩
  intro b0 h
  rw [h]
  simp [surveyStatusGet, surveyStatusSet, jsNullish]

/-- C9 witness: the double-toggle applied to a concrete open gate. -/
theorem claim_C9_survey_status_gate_witness :
    surveyStatusGet
      (surveyStatusSet
        (surveyStatusSet (surveyStatusSet none (.bool true)) (.bool (!true)))
        (.bool (!(!true))))
      = surveyStatusGet (surveyStatusSet none (.bool true)) :=
  (claim_C9_survey_status_gate (surveyStatusSet none (.bool true)) true).2.2 true rfl

/-- C7: saving a group twice at the same explicit `groupId` leaves exactly
the row built from the second request — the first request and the prior
table contents do not leak into any attribute (full replace, no merge) —
with `fontFace` defaulting to `"Arial"` and `colorScheme` to `"#000000"`
when not supplied, the question list re-serialized, and no `currentId`
attribute surviving. -/
theorem claim_C7_save_full_replace (t : GroupTable) (gid : String)
    (c1 c2 : GroupConfigInput) :
    findGroup (saveGroupConfig (saveGroupConfig t gid c1).2 gid c2).2 gid
        = some (savedRow gid c2)
    ∧ findGroup (saveGroupConfig t gid c2).2 gid = some (savedRow gid c2)
    ∧ (c2.fontFace = none → (savedRow gid c2).fontFace = some "Arial")
    ∧ (c2.colorScheme = none → (savedRow gid c2).colorScheme = some "#000000")
    ∧ (savedRow gid c2).questionsJson = .parsed (c2.questions.getD [])
    ∧ (savedRow gid c2).currentId = none := by
  refine ⟨?_, ?_, ?_, ?_, rfl, rfl⟩
  · exact findGroup_putGroup (saveGroupConfig t gid c1).2 (savedRow gid c2)
  · exact findGroup_putGroup t (savedRow gid c2)
  · intro h
    simp [savedRow, optOr, h]
  · intro h
    simp [savedRow, optOr, h]

theorem JQ.blt_add_one (a : JQ) (h : 0 < a.den) : JQ.blt a (a.add 1) = true := by
  simp only [JQ.blt, JQ.add, decide_eq_true_eq]
  have h1 : (1 : JQ).den = 1 := rfl
  have h2 : (1 : JQ).num = 1 := rfl
  rw [h1, h2]
  nlinarith

theorem findGroup_counter_after (t : GroupTable) :
    findGroup (getNextGroupId t).2 "COUNTER"
      = some { ((findGroup t "COUNTER").getD { groupId := "COUNTER" }) with
               currentId := some ((counterValue t).add 1) } := by
  unfold getNextGroupId counterValue
  cases h : findGroup t "COUNTER" with
  | none =>
    simp only [h, Option.getD_none]
    exact findGroup_putGroup t _
  | some r =>
    have hg : r.groupId = "COUNTER" := findGroup_some_groupId t _ r h
    simp only [h, Option.getD_some]
    have hput := findGroup_putGroup t
      { r with currentId := some ((r.currentId.getD 0).add 1) }
    simpa [hg] using hput

theorem counterValue_getNextGroupId (t : GroupTable) :
    counterValue (getNextGroupId t).2 = (counterValue t).add 1 := by
  unfold counterValue
  rw [findGroup_counter_after]
  rfl

/-- C7 witness: two concrete saves with different styling. -/
theorem claim_C7_save_full_replace_witness :
    findGroup
      (saveGroupConfig
        (saveGroupConfig [] "7" { fontFace := some "Times" }).2 "7"
        { colorScheme := some "#abcdef" }).2 "7"
      = some (savedRow "7" { colorScheme := some "#abcdef" })
    ∧ (savedRow "7" ({ colorScheme := some "#abcdef" } : GroupConfigInput)).fontFace
        = some "Arial" :=
  ⟨(claim_C7_save_full_replace [] "7" { fontFace := some "Times" }
      { colorScheme := some "#abcdef" }).1,
   (claim_C7_save_full_replace [] "7" { fontFace := some "Times" }
      { colorScheme := some "#abcdef" }).2.2.1 rfl⟩

/-- C8: on save, a fresh identifier is allocated through the atomic
increment of the reserved `COUNTER` row exactly when the supplied path
parameter is absent or the literal string `"undefined"` (for any parameter
other than the empty string, which the JS falsiness test also catches);
successive allocations strictly increase; and the allocated value is
returned as the resolved `groupId`, stringified. -/
theorem claim_C8_group_id_allocation (t : GroupTable) (gid : Option String)
    (config : GroupConfigInput) (hgid : gid ≠ some "")
    (hden : 0 < (counterValue t).den) :
    (shouldAllocate gid = true ↔ (gid = none ∨ gid = some "undefined"))
    ∧ JQ.blt (getNextGroupId t).1 (getNextGroupId (getNextGroupId t).2).1 = true
    ∧ (shouldAllocate gid = true →
        (groupPutHandler t gid config).1.groupId
          = jsNumToString (.num ((counterValue t).add 1)))
    ∧ (shouldAllocate gid = false →
        (groupPutHandler t gid config).1.groupId = gid.getD "") := by
  refine ⟨?_, ?_, ?_, ?_⟩
  · cases gid with
    | none => simp [shouldAllocate]
    | some s =>
      have hs : s ≠ "" := fun h => hgid (by rw [h])
      simp [shouldAllocate, hs]
  · have h1 : (getNextGroupId t).1 = (counterValue t).add 1 := rfl
    have h2 : (getNextGroupId (getNextGroupId t).2).1
        = (counterValue (getNextGroupId t).2).add 1 := rfl
    rw [h1, h2, counterValue_getNextGroupId]
    refine JQ.blt_add_one _ ?_
    show 0 < (counterValue t).den * (1 : JQ).den
    rw [show ((1 : JQ).den) = 1 from rfl, mul_one]
    exact hden
  · intro h
    simp [groupPutHandler, resolveGroupId, saveGroupConfig, h]
    rfl
  · intro h
    simp [groupPutHandler, resolveGroupId, saveGroupConfig, h]

/-- C8 witness: allocation from an empty table with the `"undefined"`
sentinel. -/
theorem claim_C8_group_id_allocation_witness :
    shouldAllocate (some "undefined") = true
    ∧ (groupPutHandler [] (some "undefined") {}).1.groupId
        = jsNumToString (.num ((counterValue []).add 1)) := by
  have h := claim_C8_group_id_allocation [] (some "undefined") {} (by decide) (by decide)
  exact ⟨h.1.mpr (Or.inr rfl), h.2.2.1 (h.1.mpr (Or.inr rfl))⟩

/-- C4 counterexample: a questionId that resolves to no catalog question is
answered by `POST /ask` with HTTP 200 (the handler's message object is
wrapped in `successRes`), not with a 404 error response as claimed. -/
theorem claim_C4_counterexample :
    (routeSurveyApi [] [] [] "POST" "/ask" (.num (.num 99)) (.str "pre") .undef).1.statusCode
        = 200
    ∧ ¬ (routeSurveyApi [] [] [] "POST" "/ask"
          (.num (.num 99)) (.str "pre") .undef).1.statusCode = 404
    ∧ (routeSurveyApi [] [] [] "POST" "/ask" (.num (.num 99)) (.str "pre") .undef).1.body
        = .ask (.noQuestion "99") := by decide

/-- C4 (amended): for every questionId that does not resolve to a catalog
question (after rebuilding the catalog when the cache is empty), `POST
/ask` is answered with HTTP 200 whose body carries the message `No DB
question for id <id>`; a 404 is produced by the router only through its
fallthrough, for a method/path matching none of the four routes. -/
theorem claim_C4_ask_unresolved (cache : List CatalogQuestion)
    (rows : List StoredGroupRow) (resp : RespTable) (qid phase rating : JsValue)
    (hq : truthy qid = true)
    (hr : askResolve (if cache.length = 0 then buildCatalog rows else cache) qid = none) :
    ((routeSurveyApi cache rows resp "POST" "/ask" qid phase rating).1.statusCode = 200
      ∧ (routeSurveyApi cache rows resp "POST" "/ask" qid phase rating).1.body
          = .ask (.noQuestion (jsToString qid)))
    ∧ (∀ m p : String,
        ¬ strUpper m = "OPTIONS" →
        ¬ (strUpper m = "GET" ∧ p = "/fixed-questions") →
        ¬ (strUpper m = "POST" ∧ p = "/ask") →
        ¬ (strUpper m = "POST" ∧ p = "/rate") →
        ¬ (strUpper m = "GET" ∧ p = "/ratings") →
        (routeSurveyApi cache rows resp m p qid phase rating).1.statusCode = 404
          ∧ (routeSurveyApi cache rows resp m p qid phase rating).1.body
              = .message ("Route not found for " ++ strUpper m ++ " " ++ p)) := by
  constructor
  · have hask : (handleAsk cache rows qid phase).1
        = { waitMs := .num 0, body := .noQuestion (jsToString qid) } := by
      unfold handleAsk
      have hr2 : askResolve (if cache = [] then buildCatalog rows else cache) qid = none := by
        simpa using hr
      simp [hq, hr2]
    unfold routeSurveyApi
    rw [if_neg (by decide), if_neg (by decide), if_pos (by decide)]
    dsimp only
    rw [hask]
    exact ⟨rfl, rfl⟩
  · intro m p h1 h2 h3 h4 h5
    unfold routeSurveyApi
    rw [if_neg h1, if_neg h2, if_neg h3, if_neg h4, if_neg h5]
    exact ⟨rfl, rfl⟩

/-- C4 witness: the amended statement at a concrete unresolvable id and a
concrete unknown route. -/
theorem claim_C4_ask_unresolved_witness :
    ((routeSurveyApi [] [] [] "POST" "/ask" (.num (.num 42)) (.str "pre") .undef).1.statusCode
        = 200
      ∧ (routeSurveyApi [] [] [] "POST" "/ask"
            (.num (.num 42)) (.str "pre") .undef).1.body
          = .ask (.noQuestion (jsToString (.num (.num 42)))))
    ∧ ((routeSurveyApi [] [] [] "GET" "/bogus"
          (.num (.num 42)) (.str "pre") .undef).1.statusCode = 404) := by
  have h := claim_C4_ask_unresolved [] [] [] (.num (.num 42)) (.str "pre") .undef
    (by decide) (by decide)
  exact ⟨h.1, (h.2 "GET" "/bogus" (by decide) (by decide) (by decide) (by decide)
    (by decide)).1⟩

/-- C10: `/ask` resolves a question only under strict equality (same value
and same numeric type) between the request's questionId and a catalog
`assignedId`, so no string ever resolves against a catalog (whose ids are
numbers); concretely `"1"` yields the no-question message while the number
1 resolves — whereas `/rate` coerces its questionId with `Number` for the
text backfill and keys the rating row by `String(questionId)`, so the
string `"1"` does backfill the text of assignedId 1 under row key `"1"`. -/
theorem claim_C10_id_type_strictness :
    (∀ rows : List StoredGroupRow, ∀ s : String,
        askResolve (buildCatalog rows) (.str s) = none)
    ∧ (handleAsk demoCache [demoRow] (.str "1") (.str "pre")).1.body = .noQuestion "1"
    ∧ (handleAsk demoCache [demoRow] (.num (.num 1)) (.str "pre")).1.body = .pre "thinking"
    ∧ findResp (handleRate demoCache [] (.str "1") (.num (.num 4))).2 "1"
        = some { questionId := "1", counters := [("rating4", (⟨1, 1⟩ : JQ))],
                 question := some "Q1" } := by
  refine ⟨?_, by decide, by decide, by decide⟩
  intro rows s
  unfold askResolve
  refine List.find?_eq_none.mpr ?_
  intro q hq
  simp [idEqJs]

/-- C3 counterexample: for a question whose stored `delay` is the truthy
non-numeric string `"abc"`, the final phase computes `Number("abc") * 1000
= NaN` milliseconds for its timer — not the one-second wait the claim's
default-1-on-invalid reading predicts. -/
theorem claim_C3_counterexample :
    ((handleAsk (buildCatalog [c3Row]) [c3Row] (.num (.num 1)) (.str "final")).1).waitMs
      = JSNum.nan
    ∧ JSNum.nan ≠ JSNum.num ⟨1000, 1⟩ := by decide

theorem buildCatalog_singleton (itm : StoredGroupRow) (obj : GroupQuestion)
    (hq : itm.questionsJson = .parsed [obj]) :
    buildCatalog [itm] = [mkCatalogQ itm 1 obj] := by
  rw [buildCatalog_eq]
  simp [flattenedEntries, rowQuestions, hq, numberFrom]

/-- C3 (amended): for every catalog built from the Groups scan and every
questionId resolving to a catalog question, phase `"pre"` returns the
question's pre-answer immediately (no sleep), and phase `"final"` returns
the stored question's answer with `colorScheme` and `fontFace` taken from
its group's row level (whatever per-question overrides the stored question
object carries) after `Number(delay || 1) * 1000` milliseconds, where the
delay is the stored question's `delay ?? "1"`; in particular delay `"0"`
gives no wait, delay `"1"` (the default for an absent delay) gives one
second, delay `"2"` gives two seconds, and a truthy non-numeric delay
yields a NaN timer argument, not the one-second default the original claim
asserts for invalid delays. -/
theorem claim_C3_ask_phases (rows : List StoredGroupRow) (qid : JsValue)
    (dbQ : CatalogQuestion)
    (hq : truthy qid = true)
    (hres : askResolve (buildCatalog rows) qid = some dbQ) :
    ((handleAsk (buildCatalog rows) rows qid (.str "pre")).1
        = { waitMs := .num 0, body := .pre dbQ.preAnswer })
    ∧ (∃ itm ∈ rows, ∃ obj ∈ rowQuestions itm,
        dbQ.delay = obj.delay.getD (.str "1")
        ∧ (handleAsk (buildCatalog rows) rows qid (.str "final")).1
            = { waitMs := jsMul (toNumber (jsOr (obj.delay.getD (.str "1"))
                    (.num (.num 1)))) (.num ⟨1000, 1⟩),
                body := .final (obj.answer.getD "") (itm.colorScheme.getD "")
                          (itm.fontFace.getD "") })
    ∧ (dbQ.delay = .str "0" →
        ((handleAsk (buildCatalog rows) rows qid (.str "final")).1).waitMs = .num ⟨0, 1⟩)
    ∧ (dbQ.delay = .str "1" →
        ((handleAsk (buildCatalog rows) rows qid (.str "final")).1).waitMs = .num ⟨1000, 1⟩)
    ∧ (dbQ.delay = .str "2" →
        ((handleAsk (buildCatalog rows) rows qid (.str "final")).1).waitMs = .num ⟨2000, 1⟩)
    ∧ (∀ d : JsValue, dbQ.delay = d → truthy d = true → toNumber d = .nan →
        ((handleAsk (buildCatalog rows) rows qid (.str "final")).1).waitMs = .nan) := by
  have hpre : (handleAsk (buildCatalog rows) rows qid (.str "pre")).1
      = { waitMs := .num 0, body := .pre dbQ.preAnswer } := by
    unfold handleAsk
    simp [hq, hres, ite_self]
  have hfin : (handleAsk (buildCatalog rows) rows qid (.str "final")).1
      = { waitMs := jsMul (toNumber (jsOr dbQ.delay (.num (.num 1)))) (.num ⟨1000, 1⟩),
          body := .final dbQ.answer dbQ.colorScheme dbQ.fontFace } := by
    unfold handleAsk
    simp [hq, hres, ite_self]
  obtain ⟨itm, hitm, obj, hobj, heq⟩ := askResolve_provenance rows qid dbQ hres
  refine ⟨hpre, ⟨itm, hitm, obj, hobj, ?_, ?_⟩, ?_, ?_, ?_, ?_⟩
  · rw [heq]
    rfl
  · rw [hfin, heq]
    rfl
  · intro hd
    rw [hfin]
    show jsMul (toNumber (jsOr dbQ.delay (.num (.num 1)))) (.num ⟨1000, 1⟩) = .num ⟨0, 1⟩
    rw [hd]
    decide
  · intro hd
    rw [hfin]
    show jsMul (toNumber (jsOr dbQ.delay (.num (.num 1)))) (.num ⟨1000, 1⟩) = .num ⟨1000, 1⟩
    rw [hd]
    decide
  · intro hd
    rw [hfin]
    show jsMul (toNumber (jsOr dbQ.delay (.num (.num 1)))) (.num ⟨1000, 1⟩) = .num ⟨2000, 1⟩
    rw [hd]
    decide
  · intro d hd htr hnan
    rw [hfin]
    show jsMul (toNumber (jsOr dbQ.delay (.num (.num 1)))) (.num ⟨1000, 1⟩) = .nan
    rw [hd]
    simp [jsOr, htr, hnan, jsMul]

/-- C3 witness: the amended statement applied to the catalog built from the
concrete zero-delay demo row. -/
theorem claim_C3_ask_phases_witness :
    ((handleAsk (buildCatalog [demoRow]) [demoRow] (.num (.num 1)) (.str "pre")).1
        = { waitMs := .num 0, body := .pre "thinking" })
    ∧ ((handleAsk (buildCatalog [demoRow]) [demoRow] (.num (.num 1)) (.str "final")).1).waitMs
        = .num ⟨0, 1⟩ := by
  have h := claim_C3_ask_phases [demoRow] (.num (.num 1))
    { assignedId := 1, question := "Q1", preAnswer := "thinking", answer := "A1",
      delay := .str "0", groupId := "g1", colorScheme := "#111111", fontFace := "Arial" }
    (by decide) (by decide)
  exact ⟨h.1, h.2.2.1 rfl⟩

/-- C2: `deleteQuestionFromGroup` removes exactly the questions whose
trimmed lower-cased text equals the trimmed lower-cased input; when nothing
remains it deletes the whole row, so a subsequent get of that groupId
returns NotFound; otherwise it rewrites the row with the filtered list,
preserving the stored (nonempty) `fontFace` and `colorScheme`; and it
fails with NotFound when the row or its question blob does not exist. -/
theorem claim_C2_delete_question (t : GroupTable) (gid qText : String)
    (row : StoredGroupRow) (qs : List GroupQuestion)
    (hrow : findGroup t gid = some row)
    (hqs : row.questionsJson = .parsed qs)
    (hff : ∃ s, row.fontFace = some s ∧ s ≠ "")
    (hcs : ∃ s, row.colorScheme = some s ∧ s ≠ "") :
    (∀ q, q ∈ deleteFilter qs qText
        ↔ q ∈ qs ∧ strLower (strTrim (q.question.getD "")) ≠ strLower (strTrim qText))
    ∧ (deleteFilter qs qText = [] →
        (deleteQuestionFromGroup t gid qText).1
            = .deletedGroup ("Deleted entire group row for groupId " ++ gid)
        ∧ getGroupConfig (deleteQuestionFromGroup t gid qText).2 gid
            = .notFound ("Group " ++ gid ++ " not found."))
    ∧ (deleteFilter qs qText ≠ [] →
        (deleteQuestionFromGroup t gid qText).1
            = .removed ("Removed question from group " ++ gid)
        ∧ findGroup (deleteQuestionFromGroup t gid qText).2 gid
            = some { groupId := gid, fontFace := row.fontFace,
                     colorScheme := row.colorScheme,
                     questionsJson := .parsed (deleteFilter qs qText),
                     currentId := none })
    ∧ (∀ (t2 : GroupTable) (g2 x : String), findGroup t2 g2 = none →
        (deleteQuestionFromGroup t2 g2 x).1
            = .notFound ("No questions found for group " ++ g2))
    ∧ (∀ (t2 : GroupTable) (g2 x : String) (r2 : StoredGroupRow),
        findGroup t2 g2 = some r2 → r2.questionsJson = .absent →
        (deleteQuestionFromGroup t2 g2 x).1
            = .notFound ("No questions found for group " ++ g2)) := by
  obtain ⟨fs, hfs, hfne⟩ := hff
  obtain ⟨cs, hcsx, hcne⟩ := hcs
  refine ⟨?_, ?_, ?_, ?_, ?_⟩
  · intro q
    simp [deleteFilter, List.mem_filter]
  · intro h
    constructor
    · simp [deleteQuestionFromGroup, hrow, hqs, h]
    · have ht : (deleteQuestionFromGroup t gid qText).2 = deleteGroup t gid := by
        simp [deleteQuestionFromGroup, hrow, hqs, h]
      rw [ht]
      simp [getGroupConfig, findGroup_deleteGroup]
  · intro h
    have hne : (deleteFilter qs qText).isEmpty = false := by
      cases hu : deleteFilter qs qText with
      | nil => exact absurd hu h
      | cons a l => rfl
    constructor
    · simp [deleteQuestionFromGroup, hrow, hqs, hne]
    · have ht : (deleteQuestionFromGroup t gid qText).2
          = putGroup t
              { groupId := gid
                fontFace := some (optOr row.fontFace "Arial")
                colorScheme := some (optOr row.colorScheme "#000000")
                questionsJson := .parsed (deleteFilter qs qText) } := by
        simp [deleteQuestionFromGroup, hrow, hqs, hne]
      rw [ht]
      have := findGroup_putGroup t
        { groupId := gid
          fontFace := some (optOr row.fontFace "Arial")
          colorScheme := some (optOr row.colorScheme "#000000")
          questionsJson := .parsed (deleteFilter qs qText) }
      rw [this]
      simp [optOr, hfs, hfne, hcsx, hcne]
  · intro t2 g2 x h
    simp [deleteQuestionFromGroup, h]
  · intro t2 g2 x r2 h h2
    simp [deleteQuestionFromGroup, h, h2]

/-- C2 witness: deleting `"foo"` from a concrete two-question group matches
the first question case-insensitively after trimming and keeps the second,
preserving the stored styling. -/
theorem claim_C2_delete_question_witness :
    ((deleteQuestionFromGroup [c2Row] "g2" "foo").1
        = .removed "Removed question from group g2")
    ∧ findGroup (deleteQuestionFromGroup [c2Row] "g2" "foo").2 "g2"
        = some { groupId := "g2", fontFace := some "Georgia",
                 colorScheme := some "#222222",
                 questionsJson := .parsed [{ question := some "Bar", answer := some "B" }],
                 currentId := none } := by
  have h := claim_C2_delete_question [c2Row] "g2" "foo" c2Row
    [{ question := some " Foo ", answer := some "A" },
     { question := some "Bar", answer := some "B" }]
    rfl rfl ⟨"Georgia", rfl, by decide⟩ ⟨"#222222", rfl, by decide⟩
  have h3 := h.2.2.1 (by decide)
  refine ⟨h3.1, ?_⟩
  rw [h3.2]
  rfl

theorem jsGe_num_one (x : JQ) : jsGe (.num x) (.num 1) = decide (x.den ≤ x.num) := by
  show JQ.ble 1 x = _
  unfold JQ.ble
  rw [show ((1 : JQ).num) = 1 from rfl, show ((1 : JQ).den) = 1 from rfl, one_mul, mul_one]

theorem jsGe_five_num (x : JQ) : jsGe (.num 5) (.num x) = decide (x.num ≤ 5 * x.den) := by
  show JQ.ble x 5 = _
  unfold JQ.ble
  rw [show ((5 : JQ).num) = 5 from rfl, show ((5 : JQ).den) = 1 from rfl, mul_one]

theorem blt_num_one (x : JQ) : JQ.blt x 1 = decide (x.num < x.den) := by
  unfold JQ.blt
  rw [show ((1 : JQ).num) = 1 from rfl, show ((1 : JQ).den) = 1 from rfl, one_mul, mul_one]

theorem blt_five_num (x : JQ) : JQ.blt 5 x = decide (5 * x.den < x.num) := by
  unfold JQ.blt
  rw [show ((5 : JQ).num) = 5 from rfl, show ((5 : JQ).den) = 1 from rfl, mul_one]

/-- C5 counterexample: the non-integer rating 2.5 (a value `Number` accepts
inside [1,5]) is not rejected: it passes validation and increments a
`rating2.5` column, although the claim requires every non-integer rating to
fail with InvalidInput. -/
theorem claim_C5_counterexample :
    (∀ n : Int, ¬ (JQ.beqv ⟨5, 2⟩ ⟨n, 1⟩ = true))
    ∧ truthy (.str "q7") = true
    ∧ (handleRate [] [] (.str "q7") (.num (.num ⟨5, 2⟩))).1
        = .stored [("rating2.5", (⟨1, 1⟩ : JQ))]
    ∧ (handleRate [] [] (.str "q7") (.num (.num ⟨5, 2⟩))).2 ≠ [] := by
  refine ⟨?_, by decide, by decide, by decide⟩
  intro n h
  simp only [JQ.beqv, beq_iff_eq] at h
  omega

/-- C5 (amended): the rate operation fails with InvalidInput exactly when
the questionId is falsy or `Number(rating)` is NaN or falls outside the
closed interval [1,5] — integrality is not checked, so fractional in-range
ratings are accepted — and on every such failure the stored state is
unchanged (in particular ratings 6 and 0 fail and modify nothing). -/
theorem claim_C5_rate_validation (cache : List CatalogQuestion) (t : RespTable)
    (qid rating : JsValue) :
    ((handleRate cache t qid rating).1 = .invalid
      ↔ (truthy qid = false ∨ toNumber rating = .nan
          ∨ ∃ x : JQ, toNumber rating = .num x
              ∧ (JQ.blt x 1 = true ∨ JQ.blt 5 x = true)))
    ∧ ((handleRate cache t qid rating).1 = .invalid →
        (handleRate cache t qid rating).2 = t) := by
  cases hc : (!truthy qid
      || !(jsGe (toNumber rating) (.num 1) && jsGe (.num 5) (toNumber rating))) with
  | true =>
    have hred : handleRate cache t qid rating = (.invalid, t) := by
      unfold handleRate
      rw [if_pos hc]
    rw [hred]
    refine ⟨⟨fun _ => ?_, fun _ => rfl⟩, fun _ => rfl⟩
    by_cases h1 : truthy qid = true
    · have h2 : (jsGe (toNumber rating) (.num 1)
          && jsGe (.num 5) (toNumber rating)) = false := by
        cases hx : (jsGe (toNumber rating) (.num 1) && jsGe (.num 5) (toNumber rating)) with
        | false => rfl
        | true => rw [h1, hx] at hc; simp at hc
      cases hn : toNumber rating with
      | nan => exact Or.inr (Or.inl rfl)
      | num x =>
        refine Or.inr (Or.inr ⟨x, rfl, ?_⟩)
        rw [hn] at h2
        cases ha : jsGe (.num x) (.num 1) with
        | false =>
          left
          rw [jsGe_num_one] at ha
          rw [blt_num_one]
          simp only [decide_eq_false_iff_not] at ha
          simp only [decide_eq_true_eq]
          omega
        | true =>
          have hb : jsGe (.num 5) (.num x) = false := by
            rw [ha] at h2
            simpa using h2
          right
          rw [jsGe_five_num] at hb
          rw [blt_five_num]
          simp only [decide_eq_false_iff_not] at hb
          simp only [decide_eq_true_eq]
          omega
    · exact Or.inl (by simpa using h1)
  | false =>
    have hq2 : truthy qid = true := by
      cases h : truthy qid with
      | true => rfl
      | false => rw [h] at hc; simp at hc
    have hab : (jsGe (toNumber rating) (.num 1)
        && jsGe (.num 5) (toNumber rating)) = true := by
      cases h : (jsGe (toNumber rating) (.num 1) && jsGe (.num 5) (toNumber rating)) with
      | true => rfl
      | false => rw [h] at hc; simp at hc
    have ha : jsGe (toNumber rating) (.num 1) = true := by
      cases h : jsGe (toNumber rating) (.num 1) with
      | true => rfl
      | false => rw [h] at hab; simp at hab
    have hb : jsGe (.num 5) (toNumber rating) = true := by
      cases h : jsGe (.num 5) (toNumber rating) with
      | true => rfl
      | false => rw [h] at hab; simp at hab
    have hne : (handleRate cache t qid rating).1 ≠ .invalid := by
      unfold handleRate
      rw [if_neg (by simp [hq2, ha, hb])]
      dsimp only
      split
      · simp
      · split
        · simp
        · simp
    have hfalse : ¬ (truthy qid = false ∨ toNumber rating = .nan
        ∨ ∃ x : JQ, toNumber rating = .num x
            ∧ (JQ.blt x 1 = true ∨ JQ.blt 5 x = true)) := by
      rintro (h1 | h2 | ⟨x, hx, hor⟩)
      · rw [hq2] at h1; cases h1
      · rw [h2] at ha; simp [jsGe] at ha
      · rw [hx] at ha hb
        rw [jsGe_num_one] at ha
        rw [jsGe_five_num] at hb
        simp only [decide_eq_true_eq] at ha hb
        rcases hor with hlt | hlt
        · rw [blt_num_one] at hlt
          simp only [decide_eq_true_eq] at hlt
          omega
        · rw [blt_five_num] at hlt
          simp only [decide_eq_true_eq] at hlt
          omega
    exact ⟨⟨fun h => absurd h hne, fun hr => absurd hr hfalse⟩,
           fun h => absurd h hne⟩

/-- C5 witness: ratings 6 and 0 with a present questionId both fail with
InvalidInput and leave the (empty) store unchanged. -/
theorem claim_C5_rate_validation_witness :
    (handleRate [] [] (.str "q") (.num (.num 6))).1 = .invalid
    ∧ (handleRate [] [] (.str "q") (.num (.num 6))).2 = []
    ∧ (handleRate [] [] (.str "q") (.num (.num 0))).1 = .invalid
    ∧ (handleRate [] [] (.str "q") (.num (.num 0))).2 = [] := by
  have h6 := claim_C5_rate_validation [] [] (.str "q") (.num (.num 6))
  have h0 := claim_C5_rate_validation [] [] (.str "q") (.num (.num 0))
  have e6 : (handleRate [] [] (.str "q") (.num (.num 6))).1 = .invalid :=
    h6.1.mpr (Or.inr (Or.inr ⟨6, rfl, Or.inr (by decide)⟩))
  have e0 : (handleRate [] [] (.str "q") (.num (.num 0))).1 = .invalid :=
    h0.1.mpr (Or.inr (Or.inr ⟨0, rfl, Or.inl (by decide)⟩))
  exact ⟨e6, h6.2 e6, e0, h0.2 e0⟩

theorem getD_questionId (t : RespTable) (k : String) :
    ((findResp t k).getD { questionId := k }).questionId = k := by
  cases h : findResp t k with
  | none => rfl
  | some r => simpa using findResp_some_questionId t k r h

theorem findResp_putResp_getD (t : RespTable) (row : RatingRow) (k : String)
    (h : row.questionId = k) (d : RatingRow) :
    (findResp (putResp t row) k).getD d = row := by
  rw [← h, findResp_putResp]
  rfl

/-- C6: five submissions of rating 3 against a fresh row accumulate
`rating3 = 5` with the other counters reading 0 and the question text
backfilled from the catalog; a question text already stored on the row is
never overwritten by a later submit; and when the catalog cache cannot
resolve the questionId the backfill is a no-op (the row's question
attribute is exactly what it was before the submit). -/
theorem claim_C6_rating_accumulation :
    (getAllRatings (submitN demoCache (.num (.num 1)) (.num (.num 3)) 5 [])
      = [{ questionId := "1", question := some "Q1",
           rating1 := ⟨0, 1⟩, rating2 := ⟨0, 1⟩, rating3 := ⟨5, 1⟩,
           rating4 := ⟨0, 1⟩, rating5 := ⟨0, 1⟩ }])
    ∧ (∀ (cache : List CatalogQuestion) (t : RespTable) (qid rating : JsValue)
          (row : RatingRow) (t0 : String),
        findResp t (jsToString qid) = some row → row.question = some t0 →
        ((findResp (handleRate cache t qid rating).2 (jsToString qid)).getD
            { questionId := jsToString qid }).question = some t0)
    ∧ (∀ (cache : List CatalogQuestion) (t : RespTable) (qid rating : JsValue),
        resolveRatingText cache qid = "" →
        ((findResp (handleRate cache t qid rating).2 (jsToString qid)).getD
            { questionId := jsToString qid }).question
          = ((findResp t (jsToString qid)).getD
              { questionId := jsToString qid }).question) := by
  refine ⟨by decide, ?_, ?_⟩
  · intro cache t qid rating row t0 hrow hq
    by_cases hc : (!truthy qid
        || !(jsGe (toNumber rating) (.num 1) && jsGe (.num 5) (toNumber rating))) = true
    · unfold handleRate
      rw [if_pos hc, hrow]
      exact hq
    · unfold handleRate
      rw [if_neg hc]
      dsimp only
      rw [hrow]
      simp only [Option.getD_some]
      split
      · rw [findResp_putResp_getD] <;>
          first
            | (exact hq)
            | (simpa using findResp_some_questionId t _ row hrow)
      · split
        · rw [findResp_putResp_getD] <;>
            first
              | (simp [hq]; done)
              | (simpa using findResp_some_questionId t _ row hrow)
        · rw [findResp_putResp_getD] <;>
            first
              | (exact hq)
              | (simpa using findResp_some_questionId t _ row hrow)
  · intro cache t qid rating hres
    by_cases hc : (!truthy qid
        || !(jsGe (toNumber rating) (.num 1) && jsGe (.num 5) (toNumber rating))) = true
    · unfold handleRate
      rw [if_pos hc]
    · unfold handleRate
      rw [if_neg hc]
      dsimp only
      split
      · rw [findResp_putResp_getD] <;>
          first
            | rfl
            | (simpa using getD_questionId t (jsToString qid))
      · split
        · rename_i hx
          exact absurd hres hx
        · rw [findResp_putResp_getD] <;>
            first
              | rfl
              | (simpa using getD_questionId t (jsToString qid))

/-- C6 witness: preservation of an already-stored text under a further
submit, and the backfill no-op against an empty catalog cache. -/
theorem claim_C6_rating_accumulation_witness :
    ((findResp (handleRate demoCache
        [{ questionId := "1", counters := [], question := some "T0" }]
        (.num (.num 1)) (.num (.num 2))).2 (jsToString (.num (.num 1)))).getD
      { questionId := jsToString (.num (.num 1)) }).question = some "T0"
    ∧ ((findResp (handleRate [] [] (.str "z") (.num (.num 3))).2
          (jsToString (.str "z"))).getD
        { questionId := jsToString (.str "z") }).question
      = ((findResp ([] : RespTable) (jsToString (.str "z"))).getD
          { questionId := jsToString (.str "z") }).question :=
  ⟨claim_C6_rating_accumulation.2.1 demoCache
      [{ questionId := "1", counters := [], question := some "T0" }]
      (.num (.num 1)) (.num (.num 2))
      { questionId := "1", counters := [], question := some "T0" } "T0" rfl rfl,
   claim_C6_rating_accumulation.2.2 [] [] (.str "z") (.num (.num 3)) rfl⟩

end SurveyApp
